import Mathlib

/-!
A shallow embedding of `lib/controller.js` of loopback-controller-mixin.

Modelling conventions:
* A JS field that may be `undefined`/absent is an `Option`.
* A thrown JS error is `Except.error`: `PrepError.typeError` for the
  `TypeError` raised by `definition.verb.toLowerCase()` when `verb` is
  undefined, `PrepError.missingHandler` for `throw new Error('Handler is not set')`.
* `prepare` mutates its argument in place in JS; the embedding returns the
  descriptor together with the post-state of the input definition
  (`DefinitionPost`), making the mutation explicit.
* Functions and schema objects are opaque to the mixin; they are modelled by
  `Nat` identifiers (`handler`, hooks) and by `Schema` tags (`accepts`/`returns`).
* `hideEndpoints` in JS computes a blacklist and calls
  `disableRemoteMethodByName` on each element in order; the embedding returns
  that list (the suppression sequence).
-/

namespace LoopbackControllerMixin

/-- `MODEL_METHODS` constant (lines 21-25 of controller.js). -/
def MODEL_METHODS : List String :=
  ["count", "create", "createChangeStream", "deleteById", "exists", "find",
   "findById", "findOne", "patchOrCreate", "prototype.patchAttributes",
   "replaceById", "replaceOrCreate", "updateAll", "upsertWithWhere"]

/-- `RELATION_METHODS` constant (lines 26-29). -/
def RELATION_METHODS : List String :=
  ["count", "create", "delete", "destroy", "destroyById", "findById", "get",
   "update", "updateById"]

/-- `SCOPE_METHODS` constant (lines 30-32). -/
def SCOPE_METHODS : List String :=
  ["get", "create", "delete", "count"]

/-- An ACL entry object. `property` and `principalType` are the fields the
mixin defaults; `permission` stands for the framework fields passed through
unchanged. -/
structure Acl where
  property : Option String
  principalType : Option String
  permission : Option String
deriving DecidableEq

/-- The `acls` field of a raw endpoint definition: absent, a single ACL
object, or a JS array of ACL objects. -/
inductive AclsInput
  | absent
  | single (a : Acl)
  | many (l : List Acl)
deriving DecidableEq

/-- An element of the normalized `acls` array.  Because
`typeof definition.acls === 'object'` is also true of a JS array, an array
input is wrapped into a one-element array whose sole element is the original
array; the defaulting map then sets `property`/`principalType` as expando
properties on that array object.  `NormAcl.wrapped` records that case. -/
inductive NormAcl
  | entry (a : Acl)
  | wrapped (l : List Acl) (property : Option String) (principalType : Option String)
deriving DecidableEq

/-- An `accepts`/`returns` schema object; `rootObject` is the literal default
`{root: true, type: 'object'}` built at line 195. -/
inductive Schema
  | mk (id : Nat)
  | rootObject
deriving DecidableEq

/-- A schema position holding either a single object or an array of objects. -/
inductive SchemaVal
  | single (s : Schema)
  | many (l : List Schema)
deriving DecidableEq

/-- The `http` sub-object of remote-method options. -/
structure Http where
  verb : Option String
  path : Option String
deriving DecidableEq

/-- Remote-method options: the fields of `definition.options` that `prepare`
reads or writes. -/
structure RemoteMethod where
  http : Option Http
  description : Option String
  accepts : Option SchemaVal
  returns : Option SchemaVal
deriving DecidableEq

/-- The empty options object `{}` used when `definition.options` is absent. -/
def RemoteMethod.empty : RemoteMethod :=
  { http := none, description := none, accepts := none, returns := none }

/-- A raw endpoint definition, as authored in a controller file
(parameter of `prepare`, lines 155-171). -/
structure Definition where
  name : String
  verb : Option String
  path : Option String
  description : Option String
  accepts : Option SchemaVal
  returns : Option SchemaVal
  isStatic : Option Bool
  options : Option RemoteMethod
  acls : AclsInput
  handler : Option Nat
  before : Option Nat
  after : Option Nat
  error : Option Nat
deriving DecidableEq

/-- The state of the input definition object after `prepare` returns:
`isStatic` has been defaulted in place, `acls` has been reassigned to the
normalized array (whose elements were mutated in place), and `options`, when
it was present, is the very object that became the final remote-method spec. -/
structure DefinitionPost where
  name : String
  verb : Option String
  path : Option String
  description : Option String
  accepts : Option SchemaVal
  returns : Option SchemaVal
  isStatic : Option Bool
  options : Option RemoteMethod
  acls : List NormAcl
  handler : Option Nat
  before : Option Nat
  after : Option Nat
  error : Option Nat
deriving DecidableEq

/-- A lifecycle hook record `{type, handler}` (lines 217-219). -/
structure Hook where
  type : String
  handler : Nat
deriving DecidableEq

/-- The normalized controller descriptor returned by `prepare` (lines 221-228). -/
structure Descriptor where
  name : String
  isStatic : Bool
  remoteMethod : RemoteMethod
  acls : List NormAcl
  handler : Nat
  hooks : List Hook
deriving DecidableEq

/-- Errors thrown by `prepare`: the `TypeError` from
`definition.verb.toLowerCase()` when `verb` is undefined (line 188), and
`Error('Handler is not set')` (line 215). -/
inductive PrepError
  | typeError
  | missingHandler
deriving DecidableEq

/-- `getEndpointName` (lines 275-277): prepend the `endpoint:` name head. -/
def getEndpointName (name : String) : String :=
  "endpoint:" ++ name

/-- JS `String.prototype.toLowerCase`, mapped over the characters
(structurally, so that it evaluates inside the kernel). -/
def jsToLowerCase (s : String) : String :=
  String.mk (s.data.map Char.toLower)

/-- JS truthiness of an optional string: `undefined` and `''` are falsy. -/
def falsyStr : Option String → Bool
  | none => true
  | some s => s = ""

/-- The per-entry defaulting of lines 203-212: `acl.property` falls back to
the final endpoint name and `acl.principalType` to `"ROLE"`, each only when
the present value is falsy. -/
def defaultAcl (name : String) (a : Acl) : Acl :=
  { a with
    property := if falsyStr a.property then some name else a.property,
    principalType := if falsyStr a.principalType then some "ROLE" else a.principalType }

/-- `prepare` (lines 172-229).  Returns the descriptor together with the
post-state of the mutated input definition, or the thrown error. -/
def prepare (definition : Definition) : Except PrepError (Descriptor × DefinitionPost) :=
  -- let remoteMethod = definition.options || {}  (line 174; aliases options)
  let remoteMethod := definition.options.getD RemoteMethod.empty
  -- if (definition.isStatic === undefined || definition.isStatic === null)
  --   definition.isStatic = true  (lines 176-177)
  let isStatic := definition.isStatic.getD true
  -- let name = getEndpointName(definition.name); prototype prefixing (178-182)
  let name0 := getEndpointName definition.name
  let name := if isStatic then name0 else "prototype." ++ name0
  -- if (!remoteMethod.http) remoteMethod.http = {}  (lines 185-186)
  let http0 := remoteMethod.http.getD { verb := none, path := none }
  -- remoteMethod.http.verb = definition.verb.toLowerCase() || 'get'  (line 188)
  -- throws TypeError when definition.verb is undefined
  match definition.verb with
  | none => .error .typeError
  | some v =>
  let lowered := jsToLowerCase v
  let verb := if lowered = "" then "get" else lowered
  -- remoteMethod.http.path = definition.path  (line 189)
  let http := { http0 with verb := some verb, path := definition.path }
  let rm1 := { remoteMethod with http := some http }
  -- if (definition.description) remoteMethod.description = ...  (191-192)
  let rm2 := if falsyStr definition.description then rm1
             else { rm1 with description := definition.description }
  -- remoteMethod.accepts = definition.accepts || []  (line 194)
  -- remoteMethod.returns = definition.returns || {root: true, type: 'object'}  (line 195)
  let rm : RemoteMethod :=
    { rm2 with
      accepts := some (definition.accepts.getD (.many [])),
      returns := some (definition.returns.getD (.single .rootObject)) }
  -- acls normalization (198-201): the typeof-object test is also true of a
  -- JS array, so an array input is wrapped rather than passed through
  -- acls defaulting map (203-212)
  let acls : List NormAcl :=
    match definition.acls with
    | .absent => []
    | .single a => [.entry (defaultAcl name a)]
    | .many l => [.wrapped l (some name) (some "ROLE")]
  -- if (!definition.handler) throw new Error('Handler is not set')  (215)
  match definition.handler with
  | none => .error .missingHandler
  | some h =>
  -- hooks (216-219)
  let hooks : List Hook :=
    (match definition.before with | some f => [{ type := "beforeRemote", handler := f }] | none => [])
    ++ (match definition.after with | some f => [{ type := "afterRemote", handler := f }] | none => [])
    ++ (match definition.error with | some f => [{ type := "afterRemoteError", handler := f }] | none => [])
  .ok
    ({ name := name, isStatic := isStatic, remoteMethod := rm, acls := acls,
       handler := h, hooks := hooks },
     { name := definition.name, verb := definition.verb, path := definition.path,
       description := definition.description, accepts := definition.accepts,
       returns := definition.returns,
       isStatic := some isStatic,
       options := definition.options.map (fun _ => rm),
       acls := acls,
       handler := definition.handler, before := definition.before,
       after := definition.after, error := definition.error })

/-- The mixin `whitelist` option object.  The JSDoc (lines 44-47) documents
keys `base`, `relations`, `scopes`; line 102 of the code reads the key
`relation` (singular).  Both keys are modelled so that the discrepancy is
expressible. -/
structure Whitelist where
  base : Option (List String)
  relation : Option (List String)
  relations : Option (List String)
  scopes : Option (List String)
deriving DecidableEq

/-- The empty whitelist object `{}`. -/
def Whitelist.empty : Whitelist :=
  { base := none, relation := none, relations := none, scopes := none }

/-- The slice of a Loopback model that the mixin reads and writes.
`definitionSettings` maps a settings key (`relations`, `scopes`, ...) to the
key list of the object stored there; `live` does the same for the live
collections `model.relations` / `model.scopes`. -/
structure JsModel where
  sharedClass : Bool
  definitionSettings : List (String × List String)
  live : List (String × List String)
  settingsAcls : Option (List NormAcl)
  staticMembers : List (String × Nat)
  protoMembers : List (String × Nat)
deriving DecidableEq

/-- `_.union` of two key lists: concatenation keeping first occurrences. -/
def jsUnion (a b : List String) : List String :=
  (a ++ b).eraseDups

/-- `getSettings` (lines 122-153): collect relation/scope keys from the model
definition settings and the live collection, and produce the full operation
names for every key not whitelisted. -/
def getSettings (model : JsModel) (name : String) (whitelist : List String) : List String :=
  let keys : List String :=
    match model.definitionSettings.lookup name with
    | some ks => ks
    | none => []
  let keys : List String :=
    match model.live.lookup name with
    | some ks => jsUnion keys ks
    | none => keys
  match (if name = "relations" then some ("prototype.__", RELATION_METHODS)
         else if name = "scopes" then some ("__", SCOPE_METHODS)
         else none : Option (String × List String)) with
  | none => []
  | some pm =>
    keys.foldl
      (fun blacklist key =>
        if whitelist.contains key then blacklist
        else blacklist ++ pm.2.map (fun m => pm.1 ++ m ++ "__" ++ key))
      []

/-- `hideEndpoints` (lines 86-111), as the suppression sequence it disables:
explicit blacklist, then base methods filtered by `whitelist.base`, then
relation operations (whitelisted by the `relation` key the code reads), then
scope operations. -/
def hideEndpoints (model : JsModel) (blacklist : List String) (whitelist : Whitelist) : List String :=
  let filter := whitelist.base
  let modelMethods :=
    match filter with
    | some f => if 0 < f.length then MODEL_METHODS.filter (fun mn => !f.contains mn)
                else MODEL_METHODS
    | none => MODEL_METHODS
  let blacklist := blacklist ++ modelMethods
  let blacklist := blacklist ++ getSettings model "relations" (whitelist.relation.getD [])
  let blacklist := blacklist ++ getSettings model "scopes" (whitelist.scopes.getD [])
  blacklist

/-- The externally observable registrations performed while attaching a
model: remote methods defined, hooks registered, operation names disabled. -/
structure Effects where
  remoteMethods : List (String × RemoteMethod)
  hooks : List (String × String × Nat)
  disabled : List String
deriving DecidableEq

/-- No registrations. -/
def Effects.empty : Effects :=
  { remoteMethods := [], hooks := [], disabled := [] }

/-- `loadController` (lines 237-267): apply each descriptor to the model in
order — define the remote method, bind the handler as a static or prototype
member, append non-empty `acls` to `model.settings.acls` (creating it when
unset), and register each hook. -/
def loadController (model : JsModel) (controllers : List Descriptor) : JsModel × Effects :=
  controllers.foldl
    (fun acc d =>
      let m := acc.1
      let e := acc.2
      let e := { e with remoteMethods := e.remoteMethods ++ [(d.name, d.remoteMethod)] }
      let m :=
        if d.isStatic then { m with staticMembers := m.staticMembers ++ [(d.name, d.handler)] }
        else { m with protoMembers := m.protoMembers ++ [(d.name, d.handler)] }
      let m :=
        if 0 < d.acls.length then
          { m with settingsAcls := some (m.settingsAcls.getD [] ++ d.acls) }
        else m
      let e := { e with hooks := e.hooks ++ d.hooks.map (fun hk => (hk.type, d.name, hk.handler)) }
      (m, e))
    (model, Effects.empty)

/-- The mixin options object (lines 40-48).  The `_meta` file-location keys
only feed the external `require` load and are not modelled. -/
structure MixinOptions where
  whitelist : Option Whitelist
  blacklist : Option (List String)
deriving DecidableEq

/-- `Controller` (lines 50-74), with the controller file's definitions
(key-value pairs as enumerated by `Object.keys`) supplied by the external
loader.  When the model is null or has no `sharedClass`, nothing happens and
the model is returned unchanged with no registrations. -/
def Controller (controllerDefs : List (String × Definition)) (model : Option JsModel)
    (options : MixinOptions) : Except PrepError (Option JsModel × Effects) :=
  match model with
  | none => .ok (none, Effects.empty)
  | some m =>
    if m.sharedClass then do
      -- controller.name = name; prepare(controller)  (lines 63-68)
      let descs ← controllerDefs.mapM (fun p => (prepare { p.2 with name := p.1 }).map (fun r => r.1))
      let le := loadController m descs
      let bl := hideEndpoints le.1 (options.blacklist.getD []) (options.whitelist.getD Whitelist.empty)
      .ok (some le.1, { le.2 with disabled := bl })
    else .ok (some m, Effects.empty)

deriving instance DecidableEq for Except

/-! Concrete inputs used by the claim theorems. -/

/-- A model exposed over a shared class, with relations `orders` and `tags`
declared in its definition settings. -/
def mRelations : JsModel :=
  { sharedClass := true, definitionSettings := [("relations", ["orders", "tags"])],
    live := [], settingsAcls := none, staticMembers := [], protoMembers := [] }

/-- The mixin whitelist `{relations: ["orders"]}`, written exactly as the
JSDoc of the mixin documents it. -/
def wlRelationsOrders : Whitelist :=
  { base := none, relation := none, relations := some ["orders"], scopes := none }

/-- C1: For every model and every relation identifier configured on the
model, an identifier listed in `whitelist.relations` contributes no
relation-operation name to the suppression set, and an unlisted identifier
contributes all of them.  The code instead reads `whitelist.relation`
(singular) at line 102, so the documented `whitelist.relations` key is
ignored: with relations `orders` and `tags` and `whitelist.relations =
["orders"]`, every relation operation of `orders` is still suppressed. -/
theorem C1_whitelisted_relation_still_suppressed :
    "prototype.__get__orders" ∈ hideEndpoints mRelations [] wlRelationsOrders
    ∧ "prototype.__create__orders" ∈ hideEndpoints mRelations [] wlRelationsOrders
    ∧ RELATION_METHODS.all
        (fun vb => ("prototype.__" ++ vb ++ "__orders") ∈ hideEndpoints mRelations [] wlRelationsOrders) := by
  decide

/-- An ACL entry carrying only a framework field. -/
def aclPermOnly : Acl :=
  { property := none, principalType := none, permission := some "ALLOW" }

/-- A well-formed definition whose `acls` field is absent. -/
def dAclsAbsent : Definition :=
  { name := "foo", verb := some "GET", path := some "/foo", description := none,
    accepts := none, returns := none, isStatic := none, options := none,
    acls := .absent, handler := some 0, before := none, after := none, error := none }

/-- The same definition with a single ACL object. -/
def dAclsSingle : Definition := { dAclsAbsent with acls := .single aclPermOnly }

/-- The same definition with `acls` already a sequence of one ACL entry. -/
def dAclsMany : Definition := { dAclsAbsent with acls := .many [aclPermOnly] }

/-- C2: Normalization of `acls` turns a single object into a one-element
sequence and an absent field into the empty sequence, but an input that is
already a sequence is NOT passed through: since a JS array also satisfies
`typeof === 'object'`, line 198 wraps the array itself, producing a
one-element sequence containing the array (with `property`/`principalType`
set on the array object), not the sequence of its defaulted entries. -/
theorem C2_sequence_acls_wrapped_not_passed_through :
    (prepare dAclsAbsent).map (fun r => r.1.acls) = .ok []
    ∧ (prepare dAclsSingle).map (fun r => r.1.acls)
        = .ok [NormAcl.entry { property := some "endpoint:foo", principalType := some "ROLE",
                               permission := some "ALLOW" }]
    ∧ (prepare dAclsMany).map (fun r => r.1.acls)
        = .ok [NormAcl.wrapped [aclPermOnly] (some "endpoint:foo") (some "ROLE")] := by
  decide

/-- A definition with no `verb` field at all (handler present). -/
def dNoVerb : Definition :=
  { name := "login", verb := none, path := some "/login", description := none,
    accepts := none, returns := none, isStatic := none, options := none,
    acls := .absent, handler := some 0, before := none, after := none, error := none }

/-- The same definition with an uppercase verb. -/
def dPostVerb : Definition := { dNoVerb with verb := some "POST" }

/-- C3: The normalized descriptor's `http.verb` is the lowercase of `verb`,
but a missing `verb` does NOT default to `"get"`: line 188 evaluates
`definition.verb.toLowerCase()` before applying `|| 'get'`, so an absent
`verb` raises a TypeError and normalization fails.  Only an empty-string
`verb` reaches the `"get"` default. -/
theorem C3_missing_verb_raises_type_error :
    prepare dNoVerb = .error .typeError
    ∧ (prepare dPostVerb).map (fun r => r.1.remoteMethod.http)
        = .ok (some { verb := some "post", path := some "/login" })
    ∧ (prepare { dNoVerb with verb := some "" }).map (fun r => r.1.remoteMethod.http)
        = .ok (some { verb := some "get", path := some "/login" }) := by
  decide

/-- A definition with `isStatic` unset and a handler present. -/
def dUnsetStatic : Definition :=
  { name := "x", verb := some "GET", path := none, description := none,
    accepts := none, returns := none, isStatic := none, options := none,
    acls := .absent, handler := some 0, before := none, after := none, error := none }

/-- C4 counterexample: normalization is not a pure transform.  On an input
with a handler whose `isStatic` is unset, `prepare` returns a descriptor but
writes `isStatic = true` into the input definition object (line 177), so the
input is not left unchanged. -/
theorem C4_input_definition_mutated :
    dUnsetStatic.isStatic = none
    ∧ (prepare dUnsetStatic).map (fun r => r.2.isStatic) = .ok (some true) := by
  decide

/-- C4 (amended): For every definition with a verb and a handler,
normalization returns a descriptor, but it mutates the input definition in
place: `isStatic` is set to its defaulted value, `acls` is replaced by the
normalized sequence, and the `options` object, when present, becomes the
final remote-method spec; all remaining fields are unchanged. -/
theorem C4_mutation_frame (d : Definition) (v : String) (f : Nat)
    (hv : d.verb = some v) (hf : d.handler = some f) :
    ∃ desc post, prepare d = .ok (desc, post)
      ∧ post.name = d.name ∧ post.verb = d.verb ∧ post.path = d.path
      ∧ post.description = d.description ∧ post.accepts = d.accepts
      ∧ post.returns = d.returns ∧ post.handler = d.handler
      ∧ post.before = d.before ∧ post.after = d.after ∧ post.error = d.error
      ∧ post.isStatic = some (d.isStatic.getD true)
      ∧ post.acls = desc.acls
      ∧ post.options = d.options.map (fun _ => desc.remoteMethod) := by
  simp only [prepare, hv, hf]
  exact ⟨_, _, rfl, rfl, rfl, rfl, rfl, rfl, rfl, rfl, rfl, rfl, rfl, rfl, rfl, rfl⟩

/-- A definition with a handler, a verb, `isStatic` unset and an `options`
object carrying a description. -/
def dWithOptions : Definition :=
  { name := "y", verb := some "GET", path := some "/y", description := none,
    accepts := none, returns := none, isStatic := none,
    options := some { http := none, description := some "from options", accepts := none, returns := none },
    acls := .single { property := none, principalType := none, permission := some "DENY" },
    handler := some 3, before := none, after := none, error := none }

/-- C4 witness: the amended mutation frame instantiated on a concrete
definition with an `options` object present. -/
theorem C4_mutation_frame_witness :
    ∃ desc post, prepare dWithOptions = .ok (desc, post)
      ∧ post.name = dWithOptions.name ∧ post.verb = dWithOptions.verb
      ∧ post.path = dWithOptions.path
      ∧ post.description = dWithOptions.description ∧ post.accepts = dWithOptions.accepts
      ∧ post.returns = dWithOptions.returns ∧ post.handler = dWithOptions.handler
      ∧ post.before = dWithOptions.before ∧ post.after = dWithOptions.after
      ∧ post.error = dWithOptions.error
      ∧ post.isStatic = some (dWithOptions.isStatic.getD true)
      ∧ post.acls = desc.acls
      ∧ post.options = dWithOptions.options.map (fun _ => desc.remoteMethod) :=
  C4_mutation_frame dWithOptions "GET" 3 rfl rfl

/-- A definition lacking both `verb` and `handler`. -/
def dNoVerbNoHandler : Definition :=
  { name := "z", verb := none, path := none, description := none,
    accepts := none, returns := none, isStatic := none, options := none,
    acls := .absent, handler := none, before := none, after := none, error := none }

/-- The same definition with a verb but still no handler. -/
def dVerbNoHandler : Definition := { dNoVerbNoHandler with verb := some "GET" }

/-- C5: A definition lacking `handler` is meant to fail with the missing-
handler error, but the handler check at line 215 runs after the verb access
at line 188: a definition lacking both `verb` and `handler` fails with a
TypeError instead of the MissingHandler error.  Only once a verb is present
does the missing handler raise its dedicated error. -/
theorem C5_missing_handler_error_preempted :
    prepare dNoVerbNoHandler = .error .typeError
    ∧ prepare dVerbNoHandler = .error .missingHandler := by
  decide

/-- C6: For every base whitelist W, the base-derived entries of the
suppression sequence are exactly the fixed base-operation list minus W, in
the base list's order, when W is a non-empty sequence; and the entire fixed
base-operation list when W is empty or absent.  In both cases they sit
between the explicit blacklist and the relation/scope-derived entries. -/
theorem C6_base_whitelist_exclusivity (m : JsModel) (bl : List String) (wl : Whitelist) :
    (∀ W, wl.base = some W → W ≠ [] →
      ∃ t, hideEndpoints m bl wl
        = bl ++ MODEL_METHODS.filter (fun x => decide (x ∉ W)) ++ t)
    ∧ ((wl.base = none ∨ wl.base = some []) →
      ∃ t, hideEndpoints m bl wl = bl ++ MODEL_METHODS ++ t) := by
  constructor
  · intro W hW hne
    refine ⟨getSettings m "relations" (wl.relation.getD [])
      ++ getSettings m "scopes" (wl.scopes.getD []), ?_⟩
    have hfun : (fun mn => !W.contains mn) = (fun x => decide (x ∉ W)) := by
      funext x
      simp
    simp only [hideEndpoints, hW]
    rw [if_pos (List.length_pos.mpr hne), hfun]
    simp [List.append_assoc]
  · intro hbase
    refine ⟨getSettings m "relations" (wl.relation.getD [])
      ++ getSettings m "scopes" (wl.scopes.getD []), ?_⟩
    rcases hbase with h | h <;> simp [hideEndpoints, h, List.append_assoc]

/-- A publicly shared model with no relation or scope configuration. -/
def mNoSettings : JsModel :=
  { sharedClass := true, definitionSettings := [], live := [], settingsAcls := none,
    staticMembers := [], protoMembers := [] }

/-- The whitelist `{base: ["find", "count"]}` of the spec scenario. -/
def wlBaseFindCount : Whitelist :=
  { base := some ["find", "count"], relation := none, relations := none, scopes := none }

/-- C6 witness: with base whitelist `["find", "count"]`, the suppression
sequence starts with the base list minus those two names. -/
theorem C6_base_whitelist_exclusivity_witness :
    ∃ t, hideEndpoints mNoSettings [] wlBaseFindCount
      = [] ++ MODEL_METHODS.filter (fun x => decide (x ∉ ["find", "count"])) ++ t :=
  (C6_base_whitelist_exclusivity mNoSettings [] wlBaseFindCount).1 ["find", "count"] rfl (by decide)

/-- C7: For every definition that normalizes successfully, an unset
`isStatic` (absent, i.e. JS undefined or null) yields a descriptor with
`isStatic = true`, while an explicit `isStatic = false` is preserved. -/
theorem C7_isStatic_default (d : Definition) (v : String) (f : Nat)
    (hv : d.verb = some v) (hf : d.handler = some f) :
    (d.isStatic = none → (prepare d).map (fun r => r.1.isStatic) = .ok true)
    ∧ (d.isStatic = some false → (prepare d).map (fun r => r.1.isStatic) = .ok false) := by
  constructor
  · intro hs
    simp [prepare, hv, hf, hs, Except.map]
  · intro hs
    simp [prepare, hv, hf, hs, Except.map]

/-- A definition with `isStatic` unset, used to instantiate C7. -/
def dC7 : Definition :=
  { name := "c7", verb := some "PUT", path := some "/c7", description := none,
    accepts := none, returns := none, isStatic := none, options := none,
    acls := .absent, handler := some 5, before := none, after := none, error := none }

/-- C7 witness: the default instantiated on a concrete definition with
`isStatic` unset. -/
theorem C7_isStatic_default_witness :
    dC7.isStatic = none ∧ (prepare dC7).map (fun r => r.1.isStatic) = .ok true :=
  ⟨rfl, (C7_isStatic_default dC7 "PUT" 5 rfl rfl).1 rfl⟩

/-- C8: For every definition that normalizes successfully, the final
descriptor name is `"endpoint:" ++ name` when the descriptor is static
(`isStatic` unset or explicitly true), and
`"prototype." ++ ("endpoint:" ++ name)` when `isStatic` is false. -/
theorem C8_final_name (d : Definition) (v : String) (f : Nat)
    (hv : d.verb = some v) (hf : d.handler = some f) :
    ((d.isStatic = none ∨ d.isStatic = some true) →
      (prepare d).map (fun r => r.1.name) = .ok ("endpoint:" ++ d.name))
    ∧ (d.isStatic = some false →
      (prepare d).map (fun r => r.1.name) = .ok ("prototype." ++ ("endpoint:" ++ d.name))) := by
  constructor
  · rintro (hs | hs) <;> simp [prepare, hv, hf, hs, getEndpointName, Except.map]
  · intro hs
    simp [prepare, hv, hf, hs, getEndpointName, Except.map]

/-- The spec scenario definition `{name:"ping", isStatic:false, handler: fn}`
(with a verb added so that normalization does not trip over line 188). -/
def dPing : Definition :=
  { name := "ping", verb := some "GET", path := some "/ping", description := none,
    accepts := none, returns := none, isStatic := some false, options := none,
    acls := .absent, handler := some 1, before := none, after := none, error := none }

/-- C8 witness: name `ping` with `isStatic = false` yields the final name
`prototype.endpoint:ping`. -/
theorem C8_final_name_witness :
    dPing.isStatic = some false
    ∧ (prepare dPing).map (fun r => r.1.name) = .ok ("prototype." ++ ("endpoint:" ++ dPing.name))
    ∧ ("prototype." ++ ("endpoint:" ++ dPing.name)) = "prototype.endpoint:ping" :=
  ⟨rfl, (C8_final_name dPing "GET" 1 rfl rfl).2 rfl, by decide⟩

/-- The defaulting map of lines 203-212, characterized field by field: a
falsy (absent or empty-string) `property` becomes the endpoint name, a falsy
`principalType` becomes `"ROLE"`, everything else is untouched. -/
theorem defaultAcl_eq_spec (nm : String) (a : Acl) :
    defaultAcl nm a =
      { property := if a.property = none ∨ a.property = some "" then some nm else a.property,
        principalType :=
          if a.principalType = none ∨ a.principalType = some "" then some "ROLE"
          else a.principalType,
        permission := a.permission } := by
  rcases a with ⟨p, pt, perm⟩
  rcases p with _ | s <;> rcases pt with _ | t <;>
    simp [defaultAcl, falsyStr]

/-- The ACL entry `{property: "", principalType: "", permission: "ALLOW"}`,
which carries explicit (empty-string) values in both defaultable fields. -/
def aclEmptyStrings : Acl :=
  { property := some "", principalType := some "", permission := some "ALLOW" }

/-- A definition whose single ACL entry is `aclEmptyStrings`. -/
def dAclEmptyStrings : Definition :=
  { name := "p", verb := some "GET", path := none, description := none,
    accepts := none, returns := none, isStatic := none, options := none,
    acls := .single aclEmptyStrings, handler := some 0, before := none, after := none,
    error := none }

/-- C9 counterexample: the defaulting is by JS falsiness, not absence.  An
entry whose `property` and `principalType` are present but equal to the
empty string has both values overwritten (to the final name and to
`"ROLE"`), contradicting that a value the entry already has is never
overwritten. -/
theorem C9_explicit_empty_value_overwritten :
    aclEmptyStrings.property = some "" ∧ aclEmptyStrings.principalType = some ""
    ∧ (prepare dAclEmptyStrings).map (fun r => r.1.acls)
      = .ok [NormAcl.entry { property := some "endpoint:p", principalType := some "ROLE",
                             permission := some "ALLOW" }] := by
  decide

/-- C9 (amended): For a definition with a single ACL entry, the normalized
entry has its `property` defaulted to the descriptor's final name and its
`principalType` defaulted to `"ROLE"` exactly when the field is absent or
the empty string; a non-empty value is never overwritten, other fields pass
through, and the defaults depend only on the entry itself and the final
name. -/
theorem C9_acl_defaults (d : Definition) (v : String) (f : Nat) (a : Acl)
    (hv : d.verb = some v) (hf : d.handler = some f) (ha : d.acls = .single a) :
    ∃ nm, (prepare d).map (fun r => r.1.name) = .ok nm
      ∧ (prepare d).map (fun r => r.1.acls)
        = .ok [NormAcl.entry
            { property := if a.property = none ∨ a.property = some "" then some nm
                          else a.property,
              principalType :=
                if a.principalType = none ∨ a.principalType = some "" then some "ROLE"
                else a.principalType,
              permission := a.permission }] := by
  refine ⟨if d.isStatic.getD true then "endpoint:" ++ d.name
          else "prototype." ++ ("endpoint:" ++ d.name), ?_, ?_⟩
  · simp [prepare, hv, hf, getEndpointName, Except.map]
  · simp only [prepare, hv, hf, ha, getEndpointName, Except.map]
    rw [defaultAcl_eq_spec]

/-- An ACL entry with both defaultable fields absent. -/
def aclNoFields : Acl := { property := none, principalType := none, permission := some "DENY" }

/-- A definition whose single ACL entry is `aclNoFields`. -/
def dAclNoFields : Definition :=
  { name := "q", verb := some "GET", path := none, description := none,
    accepts := none, returns := none, isStatic := some true, options := none,
    acls := .single aclNoFields, handler := some 2, before := none, after := none,
    error := none }

/-- C9 witness: the amended defaulting rule instantiated on a concrete
definition whose ACL entry lacks both fields. -/
theorem C9_acl_defaults_witness :
    ∃ nm, (prepare dAclNoFields).map (fun r => r.1.name) = .ok nm
      ∧ (prepare dAclNoFields).map (fun r => r.1.acls)
        = .ok [NormAcl.entry
            { property := if aclNoFields.property = none ∨ aclNoFields.property = some ""
                          then some nm else aclNoFields.property,
              principalType :=
                if aclNoFields.principalType = none ∨ aclNoFields.principalType = some ""
                then some "ROLE" else aclNoFields.principalType,
              permission := aclNoFields.permission }] :=
  C9_acl_defaults dAclNoFields "GET" 2 aclNoFields rfl rfl rfl

/-- C10: Applying the mixin to a null model or to a model without a
`sharedClass` is a no-op, whatever the supplied controller definitions and
options: the model comes back unchanged and no remote method, hook, ACL or
suppression registration is performed. -/
theorem C10_no_shared_class_noop (cs : List (String × Definition)) (opts : MixinOptions)
    (m : Option JsModel)
    (h : m = none ∨ ∃ jm, m = some jm ∧ jm.sharedClass = false) :
    Controller cs m opts = .ok (m, Effects.empty) := by
  rcases h with rfl | ⟨jm, rfl, hsc⟩
  · rfl
  · simp [Controller, hsc]

/-- A model that is not exposed through a shared class. -/
def mNotShared : JsModel :=
  { sharedClass := false, definitionSettings := [("relations", ["orders"])],
    live := [], settingsAcls := none, staticMembers := [], protoMembers := [] }

/-- C10 witness: the no-op behaviour at a null model and at a concrete model
lacking `sharedClass`. -/
theorem C10_no_shared_class_noop_witness :
    Controller [] none { whitelist := none, blacklist := none } = .ok (none, Effects.empty)
    ∧ Controller [] (some mNotShared) { whitelist := none, blacklist := none }
      = .ok (some mNotShared, Effects.empty) :=
  ⟨C10_no_shared_class_noop [] { whitelist := none, blacklist := none } none (Or.inl rfl),
   C10_no_shared_class_noop [] { whitelist := none, blacklist := none } (some mNotShared)
     (Or.inr ⟨mNotShared, rfl, rfl⟩)⟩

end LoopbackControllerMixin
